import Mathlib

/-!
Shallow embedding of the attribute-detection and scoring logic of
`eamt22_evaluate.py` (repository `st-vincent1/eamt22_evaluation`).

Python dictionaries with the four fixed attribute keys are modelled by the
structure `Types`; a slot holding Python `None` is modelled by `Option.none`.
Operations that can raise a Python exception (`TypeError` from `str.join`,
`IndexError` from `re.findall(...)[0]`, `IndexError` from `correct_answer[i]`)
return `Option`, with `none` standing for the raised exception.
Regular-expression checks from the source are unfolded into explicit
substring / prefix scans with the same matching semantics.
-/

/-- Python `str.split(sep)` for a one-character separator, accumulator form:
splits at every occurrence, keeping empty pieces. -/
def splitCharAux (sep : Char) : List Char → List Char → List String
  | [], acc => [String.mk acc.reverse]
  | c :: rest, acc =>
    if c == sep then String.mk acc.reverse :: splitCharAux sep rest []
    else splitCharAux sep rest (c :: acc)

/-- Python `str.split(sep)` for a one-character separator; used for the
source's `.split(":")` on feature strings and `.split(",")` on label
strings. -/
def pySplit (s : String) (sep : Char) : List String :=
  splitCharAux sep s.toList []

/-- Substring test on character lists: does `pat` occur inside the list?
Models Python `re.findall(literal, s)` truthiness for a literal pattern. -/
def containsSubAux (pat : List Char) : List Char → Bool
  | [] => pat.isEmpty
  | c :: rest => pat.isPrefixOf (c :: rest) || containsSubAux pat rest

/-- `strContains s pat`: `pat` occurs as a contiguous substring of `s`. -/
def strContains (s pat : String) : Bool :=
  containsSubAux pat.toList s.toList

/-- Python `str.lower()` restricted to the alphabets the program meets:
ASCII letters plus the Polish uppercase diacritics. -/
def pyCharLower (c : Char) : Char :=
  if c = 'Ą' then 'ą' else if c = 'Ć' then 'ć' else if c = 'Ę' then 'ę'
  else if c = 'Ł' then 'ł' else if c = 'Ń' then 'ń' else if c = 'Ó' then 'ó'
  else if c = 'Ś' then 'ś' else if c = 'Ź' then 'ź' else if c = 'Ż' then 'ż'
  else c.toLower

/-- Python `str.lower()` (see `pyCharLower`). -/
def pyLower (s : String) : String := String.mk (s.toList.map pyCharLower)

/-- `re.findall(r"m[123]", feats)` truthiness from `Detector.gender_check`. -/
def hasM123 (feats : String) : Bool :=
  strContains feats "m1" || strContains feats "m2" || strContains feats "m3"

/-- First match of `re.findall(r"sg|pl", feats)` in `Detector.check_if_formal`:
leftmost occurrence of `sg` or `pl`, `sg` preferred at equal positions. -/
def firstNumberMatch : List Char → Option String
  | [] => none
  | c :: rest =>
    if "sg".toList.isPrefixOf (c :: rest) then some "sg"
    else if "pl".toList.isPrefixOf (c :: rest) then some "pl"
    else firstNumberMatch rest

/-- `re.findall(r"please|ask", english_sentence.lower())` truthiness, from the
politeness branch of `Detector.check_if_formal`. -/
def engPleaseAsk (e : String) : Bool :=
  strContains (pyLower e) "please" || strContains (pyLower e) "ask"

/-- Unanchored alternatives of the title regular expression in
`Detector.no_title`, tested at one position of the lowered text. -/
def titleWordAt (s : List Char) : Bool :=
  "ladies".toList.isPrefixOf s || "lady".toList.isPrefixOf s ||
  "gentleman".toList.isPrefixOf s || "gentlemen".toList.isPrefixOf s ||
  "lord".toList.isPrefixOf s || "master".toList.isPrefixOf s ||
  "messieurs".toList.isPrefixOf s || "dames".toList.isPrefixOf s ||
  "monsieur".toList.isPrefixOf s || "madame".toList.isPrefixOf s ||
  "madam ".toList.isPrefixOf s || "ma\x27am".toList.isPrefixOf s

/-- The group guarded by `(^| )` in the title regular expression. -/
def titleAnchoredAt (s : List Char) : Bool :=
  "sir".toList.isPrefixOf s || "mr ".toList.isPrefixOf s ||
  "mr.".toList.isPrefixOf s || "mrs ".toList.isPrefixOf s ||
  "mrs.".toList.isPrefixOf s || "ms ".toList.isPrefixOf s ||
  "ms.".toList.isPrefixOf s || "herr".toList.isPrefixOf s

/-- Scan of the lowered English text for any match of the title regular
expression; the Boolean argument records whether the scan is still at the
start of the string (for the `^` alternative of `(^| )`). -/
def titleScan : List Char → Bool → Bool
  | [], _ => false
  | c :: rest, atStart =>
    titleWordAt (c :: rest) || (atStart && titleAnchoredAt (c :: rest)) ||
    (c == ' ' && titleAnchoredAt rest) || titleScan rest false

/-- `Detector.no_title`: no honorific/title word in the English sentence. -/
def no_title (e : String) : Bool := !(titleScan (pyLower e).toList true)

/-- The nation/state regular expression of `Detector.no_nation`.  In the
source the pattern is a plain (non-raw) Python string, so its `\b` is the
literal backspace character `\x08`, making the pattern
`(countr|...|rule)|\x08`: a match is any of the listed substrings or a
literal backspace in the lowered text. -/
def nationHit (s : String) : Bool :=
  strContains s "countr" || strContains s "nation" || strContains s "land" ||
  strContains s "state" || strContains s "kingdom" || strContains s "realm" ||
  strContains s "econom" || strContains s "elsewhere" || strContains s "rule" ||
  strContains s "\x08"

/-- `Detector.no_nation`. -/
def no_nation (e : String) : Bool := !(nationHit (pyLower e))

namespace Attributes

/-- `Attributes.types`: the attribute taxonomy, in source order. -/
def types : List (String × List String) :=
  [("SpGender", ["<sp:feminine>", "<sp:masculine>"]),
   ("IlGender", ["<il:feminine>", "<il:masculine>", "<il:mixed>"]),
   ("IlNumber", ["<singular>", "<plural>"]),
   ("Formality", ["<formal>", "<informal>"])]

/-- `Attributes.attribute_list = list(self.types.keys())`. -/
def attribute_list : List String := types.map Prod.fst

/-- `Attributes.type_list`: all markers of the taxonomy. -/
def type_list : List String := (types.map Prod.snd).flatten

/-- `Attributes.reverse_map` as an association list; Python dictionary
lookup `reverse_map[x]` is `reverse_map.lookup x`. -/
def reverse_map : List (String × String) :=
  [("<sp:feminine>", "<sp:masculine>"),
   ("<sp:masculine>", "<sp:feminine>"),
   ("<il:feminine>", "<il:masculine>"),
   ("<il:masculine>", "<il:feminine>"),
   ("<il:mixed>", "<il:feminine>"),
   ("<singular>", "<plural>"),
   ("<plural>", "<singular>"),
   ("<formal>", "<informal>"),
   ("<informal>", "<formal>"),
   ("", "")]

end Attributes

/-- The Python dictionary `types` handled by the detector: it always carries
exactly the four attribute keys (`Detector.initialise_types` creates them
all), a slot's `none` standing for Python `None` (unset). -/
structure Types where
  SpGender : Option String
  IlGender : Option String
  IlNumber : Option String
  Formality : Option String
deriving DecidableEq, Repr

/-- `Detector.initialise_types`: every slot `None`. -/
def initialise_types : Types := ⟨none, none, none, none⟩

/-- Assignment `types[key] = v` for the four attribute keys (the only keys
the source ever assigns). -/
def setKey (t : Types) (key v : String) : Types :=
  if key == "SpGender" then { t with SpGender := some v }
  else if key == "IlGender" then { t with IlGender := some v }
  else if key == "IlNumber" then { t with IlNumber := some v }
  else if key == "Formality" then { t with Formality := some v }
  else t

/-- `types.get(key, "")` from `Attributes.types_to_str`: the stored value for
the four ever-present keys (possibly `None`), the default `""` otherwise. -/
def dictGet (t : Types) (key : String) : Option String :=
  if key == "SpGender" then t.SpGender
  else if key == "IlGender" then t.IlGender
  else if key == "IlNumber" then t.IlNumber
  else if key == "Formality" then t.Formality
  else some ""

/-- `Attributes.types_to_str`: `",".join(types.get(key, "") for key in ...)`.
`str.join` raises `TypeError` when any item is `None`; that exception is the
`none` result. -/
def types_to_str (t : Types) : Option String :=
  (["SpGender", "IlGender", "IlNumber", "Formality"].mapM (dictGet t)).map
    (String.intercalate ",")

/-- The `stats` dictionary of `calculate_f1`, fields in source order. -/
structure Stats where
  false_positive : Nat
  false_negative : Nat
  true_positive : Nat
  true_negative : Nat
deriving DecidableEq, Repr

/-- One field position of the inner loop of `calculate_f1`: the four
counter increments for `prediction[i]` against `correct_answer[i]`. -/
def updateField (st : Stats) (prediction correct_answer : String) : Stats :=
  let tp1 : Nat := if correct_answer = prediction ∧ correct_answer = "" then 1 else 0
  let tp2 : Nat := if correct_answer = prediction ∧ correct_answer ≠ "" then 1 else 0
  let fn1 : Nat := if correct_answer ≠ "" ∧ prediction = "" then 1 else 0
  let fp1 : Nat := if correct_answer = "" ∧ prediction ≠ "" then 1 else 0
  { st with
    true_positive := st.true_positive + tp1 + tp2,
    false_negative := st.false_negative + fn1,
    false_positive := st.false_positive + fp1 }

/-- `for i in range(len(prediction)): ...` of `calculate_f1`; indexing
`correct_answer[i]` raises `IndexError` (`none`) when the gold fields run
out before the prediction fields. -/
def fieldsStats : Stats → List String → List String → Option Stats
  | st, [], _ => some st
  | _, _ :: _, [] => none
  | st, p :: ps, g :: gs => fieldsStats (updateField st p g) ps gs

/-- The outer loop of `calculate_f1` over `zip(predictions, correct_answers)`
(Python `zip` truncates to the shorter list). -/
def calc_stats : Stats → List String → List String → Option Stats
  | st, [], _ => some st
  | st, _ :: _, [] => some st
  | st, p :: ps, g :: gs =>
    match fieldsStats st (pySplit p ',') (pySplit g ',') with
    | none => none
    | some st' => calc_stats st' ps gs

/-- Counter state of `calculate_f1` after its loops, from the all-zero
initial dictionary. -/
def statsOf (predictions correct_answers : List String) : Option Stats :=
  calc_stats ⟨0, 0, 0, 0⟩ predictions correct_answers

/-- `precision = tp / (tp + fp) * 100`; `none` is Python
`ZeroDivisionError`. -/
def precisionOf (st : Stats) : Option ℚ :=
  if st.true_positive + st.false_positive = 0 then none
  else some ((st.true_positive : ℚ) /
    ((st.true_positive : ℚ) + (st.false_positive : ℚ)) * 100)

/-- `recall = tp / (tp + fn) * 100`; `none` is Python
`ZeroDivisionError`. -/
def recallOf (st : Stats) : Option ℚ :=
  if st.true_positive + st.false_negative = 0 then none
  else some ((st.true_positive : ℚ) /
    ((st.true_positive : ℚ) + (st.false_negative : ℚ)) * 100)

/-- `calculate_f1`: the returned Boolean `f1 > 99`. -/
def calculate_f1 (predictions correct_answers : List String) : Option Bool := do
  let st ← statsOf predictions correct_answers
  let p ← precisionOf st
  let r ← recallOf st
  if p + r = 0 then none else some (2 * p * r / (p + r) > 99)

/-- A spaCy token as the detector reads it: surface form (`orth_`), lemma
(`lemma_`), coarse part of speech (`pos_`), dependency label (`dep_`), the
Morfeusz feature string (`_.feats`, colon-delimited), and the index of the
head token within the sentence (`head` is a same-sentence reference and
`head.i` its position). -/
structure Token where
  orth_ : String
  lemma_ : String
  pos_ : String
  dep_ : String
  feats : String
  headIdx : Nat
deriving DecidableEq, Repr

/-- Placeholder token for out-of-range positional lookups (never produced by
the parser: every spaCy head index is in range). -/
def dummyToken : Token := ⟨"", "", "", "", "", 0⟩

/-- A parsed sentence: tokens in surface order plus the named-entity span
texts (`[a.text for a in sentence.ents]`). -/
structure Sentence where
  tokens : List Token
  ents : List String
deriving DecidableEq, Repr

/-- Positional token access `sentence[i]`. -/
def getTok (s : Sentence) (i : Nat) : Token := s.tokens.getD i dummyToken

/-- `token.head` for the token `t`. -/
def headOf (s : Sentence) (t : Token) : Token := getTok s t.headIdx

/-- `Detector.gender_check` for `attribute` in `{"SpGender", "IlGender"}`:
a feature code matching `m[123]` writes masculine, then a feature code `f`
overwrites with feminine. -/
def gender_check (token : Token) (types : Types) (attrib : String) : Types :=
  let pfx := if attrib == "IlGender" then "il" else "sp"
  let types :=
    if hasM123 token.feats then setKey types attrib ("<" ++ pfx ++ ":masculine>")
    else types
  if (pySplit token.feats ':').contains "f" then
    setKey types attrib ("<" ++ pfx ++ ":feminine>")
  else types

/-- `Detector.no_det`: no token of the sentence has the token at position
`k` as head with dependency `det`. -/
def no_det (s : Sentence) (k : Nat) : Bool :=
  !(s.tokens.any fun t => t.headIdx == k && t.dep_ == "det")

/-- `Detector.no_appos`: no non-genitive appositive child of the token at
position `k`. -/
def no_appos (s : Sentence) (k : Nat) : Bool :=
  !(s.tokens.any fun t =>
    t.headIdx == k && t.dep_ == "appos" && !((pySplit t.feats ':').contains "gen"))

/-- `Detector.no_adp`: no adposition between positions `i` (inclusive) and
`j` (exclusive) whose head is the token at position `j`. -/
def no_adp (s : Sentence) (i j : Nat) : Bool :=
  !((List.range' i (j - i)).any fun x =>
    (getTok s x).pos_ == "ADP" && (getTok s x).headIdx == j)

/-- Loop body of `Detector.check_speaker_gender` for the token at position
`k`: first-person-singular agreement with a VERB / instrumental-NOUN / ADJ
head writes the head's gender into `SpGender`. -/
def sp_step (s : Sentence) (stopwords : List String) (types : Types)
    (kt : Nat × Token) : Types :=
  let k := kt.1
  let token := kt.2
  let head := headOf s token
  let token_feats := pySplit token.feats ':'
  let head_feats := pySplit head.feats ':'
  if !(["NOUN", "VERB", "ADJ"].contains head.pos_) then types
  else if token_feats.contains "sg" && token_feats.contains "pri" then
    let types :=
      if head.pos_ == "VERB" && ["aux:clitic", "aux", "aux:pass"].contains token.dep_
      then gender_check head types "SpGender" else types
    let types :=
      if head.pos_ == "NOUN" && head_feats.contains "inst" &&
         ["aux:clitic", "cop"].contains token.dep_ &&
         no_adp s k token.headIdx && !(stopwords.contains (pyLower head.lemma_))
      then gender_check head types "SpGender" else types
    let types :=
      if head.pos_ == "ADJ" &&
         ["aux:clitic", "aux:pass", "cop", "obl:cmpr", "obl"].contains token.dep_
      then gender_check head types "SpGender" else types
    types
  else types

/-- `Detector.check_speaker_gender`: the token loop. -/
def check_speaker_gender (s : Sentence) (stopwords : List String)
    (types : Types) : Types :=
  s.tokens.enum.foldl (sp_step s stopwords) types

/-- Loop body of `Detector.check_if_formal` and the early-return recursion:
`none` is the `IndexError` of `re.findall(r"sg|pl", feats)[0]`, the Boolean
is the `sentence_is_formal` flag. -/
def formal_go (s : Sentence) (e : String) :
    Types → List (Nat × Token) → Option (Types × Bool)
  | types, [] => some (types, false)
  | types, (k, token) :: rest =>
    let types :=
      if pyLower token.orth_ == "proszę" && !(engPleaseAsk e)
      then { types with Formality := some "<formal>" } else types
    if (pyLower token.lemma_ == "pan" || pyLower token.lemma_ == "pani") &&
       no_det s k && no_appos s k && no_title e then
      let types := { types with Formality := some "<formal>" }
      let types := gender_check token types "IlGender"
      match firstNumberMatch token.feats.toList with
      | none => none
      | some n =>
        some ({ types with
                IlNumber := some (if n == "sg" then "<singular>" else "<plural>") },
              true)
    else if pyLower token.lemma_ == "pański" then
      let types := { types with Formality := some "<formal>" }
      let types := { types with IlNumber := some "<singular>" }
      some ({ types with IlGender := some "<il:masculine>" }, true)
    else if token.lemma_ == "państwo" && no_det s k && no_nation e then
      let types := { types with Formality := some "<formal>" }
      let types := { types with IlNumber := some "<plural>" }
      some ({ types with IlGender := some "<il:mixed>" }, true)
    else
      formal_go s e types rest

/-- `Detector.check_if_formal`. -/
def check_if_formal (s : Sentence) (e : String) (types : Types) :
    Option (Types × Bool) :=
  formal_go s e types s.tokens.enum

/-- Second-person head branch of `Detector.check_interlocutor` for one value
of `number` (the `for number in ("sg", "pl")` loop runs it for `sg` then
`pl`). -/
def iloc_secHead (s : Sentence) (number : String) (token : Token)
    (types : Types) : Types :=
  let head := headOf s token
  let token_feats := pySplit token.feats ':'
  let head_feats := pySplit head.feats ':'
  if head_feats.contains number && head_feats.contains "sec" then
    if ["VERB", "PRON"].contains head.pos_ then
      let types :=
        { types with IlNumber := some (if number == "sg" then "<singular>" else "<plural>") }
      let types := { types with Formality := some "<informal>" }
      let types :=
        if token.pos_ == "ADJ" && token_feats.contains number &&
           ["xcomp:pred", "nsubj", "conj", "nsubj", "iobj", "xcomp", "amod",
            "vocative", "obl:cmpr"].contains token.dep_
        then gender_check token types "IlGender" else types
      let types :=
        if token.pos_ == "NOUN" &&
           (token.dep_ == "vocative" ||
             (["appos", "obj"].contains token.dep_ && token_feats.contains "voc")) &&
           !(s.ents.contains token.orth_)
        then gender_check token types "IlGender" else types
      types
    else types
  else types

/-- The `twój` / `wasz` possessive branch of `Detector.check_interlocutor`. -/
def iloc_possessive (token : Token) (types : Types) : Types :=
  let types :=
    if pyLower token.lemma_ == "twój"
    then { types with IlNumber := some "<singular>", Formality := some "<informal>" }
    else types
  if pyLower token.lemma_ == "wasz"
  then { types with IlNumber := some "<plural>", Formality := some "<informal>" }
  else types

/-- Second-person token branch of `Detector.check_interlocutor` for one
value of `number`; threads the `continue_check` flag (set, never cleared,
by a firing iteration).  `sentence[token.i - 1]` with `token.i = 0` is
Python negative indexing: the last token. -/
def iloc_secTok (s : Sentence) (number : String) (k : Nat) (token : Token) :
    Types × Bool → Types × Bool
  | (types, cc) =>
    let token_feats := pySplit token.feats ':'
    if token_feats.contains "sec" && token_feats.contains number then
      if !(token.orth_ == "ś" &&
           ["czym", "kim"].contains
             (getTok s (if k == 0 then s.tokens.length - 1 else k - 1)).orth_) then
        let types :=
          { types with IlNumber := some (if number == "sg" then "<singular>" else "<plural>") }
        ({ types with Formality := some "<informal>" }, true)
      else (types, cc)
    else (types, cc)

/-- The `if continue_check:` tail of `Detector.check_interlocutor`: the three
head-based gender derivations writing `IlGender`. -/
def iloc_ccGender (s : Sentence) (stopwords : List String) (k : Nat)
    (token : Token) (types : Types) : Types :=
  let head := headOf s token
  let types :=
    if head.pos_ == "VERB" && ["aux:clitic", "aux", "aux:pass"].contains token.dep_
    then gender_check head types "IlGender" else types
  let types :=
    if head.pos_ == "NOUN" && ["aux:clitic", "cop"].contains token.dep_ &&
       no_adp s k token.headIdx && !(stopwords.contains (pyLower head.lemma_))
    then gender_check head types "IlGender" else types
  let types :=
    if head.pos_ == "ADJ" &&
       ["aux:clitic", "aux:pass", "cop", "obl:cmpr", "obl"].contains token.dep_
    then gender_check head types "IlGender" else types
  types

/-- Loop body of `Detector.check_interlocutor` for the token at position
`k`, in source order: second-person head branch for `sg` then `pl`, the
possessive branch, the second-person token branch for `sg` then `pl`, then
the `continue_check` gender derivations. -/
def iloc_step (s : Sentence) (stopwords : List String) (types : Types)
    (kt : Nat × Token) : Types :=
  let k := kt.1
  let token := kt.2
  let types := iloc_secHead s "sg" token types
  let types := iloc_secHead s "pl" token types
  let types := iloc_possessive token types
  let tc := iloc_secTok s "pl" k token (iloc_secTok s "sg" k token (types, false))
  if tc.2 then iloc_ccGender s stopwords k token tc.1 else tc.1

/-- `Detector.check_interlocutor`: the token loop. -/
def check_interlocutor (s : Sentence) (stopwords : List String)
    (types : Types) : Types :=
  s.tokens.enum.foldl (iloc_step s stopwords) types

/-- `Detector.predict_types` on an already-parsed Polish sentence and the
English text: speaker-gender rule, then the formality rule with its early
return, then the interlocutor rule.  `none` is a raised exception inside
the formality rule. -/
def predict_types (s : Sentence) (e : String) (stopwords : List String) :
    Option Types :=
  let types := initialise_types
  let types := check_speaker_gender s stopwords types
  match check_if_formal s e types with
  | none => none
  | some (types, true) => some types
  | some (types, false) => some (check_interlocutor s stopwords types)

example : strContains "praet:sg:m1" "m1" = true := by decide
example : firstNumberMatch "sg:m1:nom".toList = some "sg" := by decide
example : firstNumberMatch "m1:nom".toList = none := by decide
example : types_to_str ⟨some "a", some "b", some "c", some "d"⟩ = some "a,b,c,d" := by decide
example : statsOf [",,,<formal>"] [",,,<informal>"] = some ⟨0, 0, 3, 0⟩ := by decide
example : calculate_f1 ["<sp:feminine>,,,", "<sp:feminine>,,,"]
    ["<sp:feminine>,,,", "<sp:feminine>,,,"] = some true := by
  have h : statsOf ["<sp:feminine>,,,", "<sp:feminine>,,,"]
      ["<sp:feminine>,,,", "<sp:feminine>,,,"] = some ⟨0, 0, 8, 0⟩ := by decide
  rw [calculate_f1, h]
  simp [precisionOf, recallOf]
  norm_num

/-- Fixture: token of the formal-possessive branch (`pański`). -/
def tokPanski : Token := ⟨"pański", "pański", "ADJ", "amod", "sg:m3", 0⟩

/-- Fixture: one-token sentence for the `pański` branch. -/
def sentPanski : Sentence := ⟨[tokPanski], []⟩

/-- Fixture: honorific `pan` token with a singular feature code. -/
def tokPan : Token := ⟨"pan", "pan", "NOUN", "nsubj", "sg:m1:nom", 0⟩

/-- Fixture: honorific `pan` token with no `sg`/`pl` feature code. -/
def tokPanNoNum : Token := ⟨"pan", "pan", "NOUN", "nsubj", "m1:nom", 0⟩

/-- Fixture: surface form `proszę` (lemma is `prosić`, not a formal-address
lemma). -/
def tokProsze : Token := ⟨"proszę", "prosić", "VERB", "ROOT", "fin", 0⟩

/-- Fixture: one-token politeness-branch sentence. -/
def sentProsze : Sentence := ⟨[tokProsze], []⟩

/-- Fixture: second-person singular verb token (its own head). -/
def tokSec : Token := ⟨"jesteś", "być", "VERB", "ROOT", "sg:sec", 1⟩

/-- Fixture: `proszę` followed by a second-person verb. -/
def sentProszeSec : Sentence := ⟨[tokProsze, tokSec], []⟩

example : predict_types sentPanski "your book" [] =
    some ⟨none, some "<il:masculine>", some "<singular>", some "<formal>"⟩ := by decide
example : predict_types ⟨[tokPan], []⟩ "how are you" [] =
    some ⟨none, some "<il:masculine>", some "<singular>", some "<formal>"⟩ := by decide
example : check_if_formal ⟨[tokPanNoNum], []⟩ "how are you" initialise_types = none := by decide
example : predict_types sentProsze "Come in" [] =
    some ⟨none, none, none, some "<formal>"⟩ := by decide
example : predict_types sentProszeSec "Come in tomorrow" [] =
    some ⟨none, none, some "<singular>", some "<informal>"⟩ := by decide

/-- The value `gender_check` would write for a feature string: `f` wins over
an `m[123]` code because the feminine test runs second. -/
def genderValue (pfx : String) (feats : String) : Option String :=
  if (pySplit feats ':').contains "f" then some ("<" ++ pfx ++ ":feminine>")
  else if hasM123 feats then some ("<" ++ pfx ++ ":masculine>")
  else none

theorem gender_check_eq_sp (token : Token) (types : Types) :
    gender_check token types "SpGender" =
      match genderValue "sp" token.feats with
      | some g => { types with SpGender := some g }
      | none => types := by
  unfold gender_check genderValue setKey
  by_cases hf : "f" ∈ pySplit token.feats ':' <;>
    by_cases hm : hasM123 token.feats <;> simp [hf, hm]

theorem gender_check_eq_il (token : Token) (types : Types) :
    gender_check token types "IlGender" =
      match genderValue "il" token.feats with
      | some g => { types with IlGender := some g }
      | none => types := by
  unfold gender_check genderValue setKey
  by_cases hf : "f" ∈ pySplit token.feats ':' <;>
    by_cases hm : hasM123 token.feats <;> simp [hf, hm]

/-- C1 counterexample: `<il:mixed>` is a registered marker, yet applying the
opposite map twice sends it to `<il:masculine>`, not back to itself
(`reverse_map` maps `<il:mixed>` to `<il:feminine>` and `<il:feminine>` to
`<il:masculine>`). -/
theorem opposite_not_involutive_on_mixed :
    "<il:mixed>" ∈ Attributes.type_list ∧
    (Attributes.reverse_map.lookup "<il:mixed>").bind Attributes.reverse_map.lookup
      = some "<il:masculine>" ∧
    (Attributes.reverse_map.lookup "<il:mixed>").bind Attributes.reverse_map.lookup
      ≠ some "<il:mixed>" := by decide

/-- C1 (amended): the opposite map is an involution on every registered
marker except `<il:mixed>`, the empty marker is a fixed point, and
`<il:mixed>` goes to `<il:masculine>` under the double map. -/
theorem opposite_involutive_except_mixed :
    (∀ m ∈ Attributes.type_list, m ≠ "<il:mixed>" →
      (Attributes.reverse_map.lookup m).bind Attributes.reverse_map.lookup = some m) ∧
    (Attributes.reverse_map.lookup "").bind Attributes.reverse_map.lookup = some "" ∧
    (Attributes.reverse_map.lookup "<il:mixed>").bind Attributes.reverse_map.lookup
      = some "<il:masculine>" := by decide

/-- C1 witness: the amended involution law at the concrete marker
`<formal>`. -/
theorem opposite_involutive_except_mixed_witness :
    (Attributes.reverse_map.lookup "<formal>").bind Attributes.reverse_map.lookup
      = some "<formal>" :=
  opposite_involutive_except_mixed.1 "<formal>" (by decide) (by decide)

/-- C2: `types_to_str` does not emit an empty field for an unset slot — it
raises `TypeError` (modelled as `none`), because the dictionary stores
`None` under an ever-present key and `dict.get`'s default is never used.
On a fully-set slot dictionary it does produce the four comma-joined
fields. -/
theorem types_to_str_raises_on_unset_slot :
    types_to_str initialise_types = none ∧
    types_to_str ⟨some "<sp:feminine>", none, none, none⟩ = none ∧
    types_to_str ⟨some "<sp:masculine>", some "<il:feminine>", some "<singular>",
      some "<formal>"⟩ = some "<sp:masculine>,<il:feminine>,<singular>,<formal>" := by
  decide

/-- C3 counterexample: for prediction `,,,<formal>` against gold
`,,,<informal>` neither the false-positive nor the false-negative counter
ends at 1; both stay 0 (the three empty fields give 3 true positives). -/
theorem mismatched_nonempty_not_counted_cex :
    (statsOf [",,,<formal>"] [",,,<informal>"]).map Stats.false_positive ≠ some 1 ∧
    (statsOf [",,,<formal>"] [",,,<informal>"]).map Stats.false_negative ≠ some 1 ∧
    statsOf [",,,<formal>"] [",,,<informal>"] = some ⟨0, 0, 3, 0⟩ := by decide

/-- C3 (amended): an aligned field whose gold and predicted values are both
non-empty and differ changes none of the four counters: false-negative
needs an empty prediction and false-positive an empty gold, so a
mismatched non-empty pair is simply not counted. -/
theorem mismatched_nonempty_changes_no_counter (st : Stats) (p g : String)
    (hp : p ≠ "") (hg : g ≠ "") (hne : p ≠ g) :
    updateField st p g = st := by
  have h1 : ¬(g = p ∧ g = "") := fun h => hne h.1.symm
  have h2 : ¬(g = p ∧ g ≠ "") := fun h => hne h.1.symm
  have h3 : ¬(g ≠ "" ∧ p = "") := fun h => hp h.2
  have h4 : ¬(g = "" ∧ p ≠ "") := fun h => hg h.1
  simp [updateField, h1, h2, h3, h4]

/-- C3 witness: the amended no-counting law at the concrete mismatched
field pair of the claim. -/
theorem mismatched_nonempty_changes_no_counter_witness :
    updateField ⟨0, 0, 3, 0⟩ "<formal>" "<informal>" = ⟨0, 0, 3, 0⟩ :=
  mismatched_nonempty_changes_no_counter ⟨0, 0, 3, 0⟩ "<formal>" "<informal>"
    (by decide) (by decide) (by decide)

/-- C10: when a token's feature string has both an `m[123]` code and the
code `f`, `gender_check` assigns feminine for either attribute: the
feminine test runs second and overwrites the masculine assignment. -/
theorem gender_check_feminine_overrides_masculine (token : Token) (types : Types)
    (hm : hasM123 token.feats = true)
    (hf : "f" ∈ pySplit token.feats ':') :
    (gender_check token types "SpGender").SpGender = some "<sp:feminine>" ∧
    (gender_check token types "IlGender").IlGender = some "<il:feminine>" := by
  rw [gender_check_eq_sp, gender_check_eq_il]
  unfold genderValue
  simp [hm, hf]

/-- C10 witness: feminine wins on the concrete feature string `m1:f`. -/
theorem gender_check_feminine_overrides_masculine_witness :
    (gender_check ⟨"", "", "", "", "m1:f", 0⟩ initialise_types "SpGender").SpGender
      = some "<sp:feminine>" ∧
    (gender_check ⟨"", "", "", "", "m1:f", 0⟩ initialise_types "IlGender").IlGender
      = some "<il:feminine>" :=
  gender_check_feminine_overrides_masculine ⟨"", "", "", "", "m1:f", 0⟩
    initialise_types (by decide) (by decide)

/-- C7: when the scan of `check_if_formal` reaches an honorific token
(lemma `pan`/`pani`, all three guards passing), a feature string with no
`sg`/`pl` code makes the whole rule raise (`re.findall(r"sg|pl", feats)[0]`
is an `IndexError`, modelled `none`) instead of skipping the token, while a
present number code sets `IlNumber` to singular for `sg` and plural for
`pl` and terminates the rule. -/
theorem honorific_number_is_fatal_or_sets_ilnumber
    (s : Sentence) (e : String) (types : Types) (k : Nat) (token : Token)
    (rest : List (Nat × Token))
    (hlem : pyLower token.lemma_ = "pan" ∨ pyLower token.lemma_ = "pani")
    (hdet : no_det s k = true) (happ : no_appos s k = true)
    (htit : no_title e = true) :
    (firstNumberMatch token.feats.toList = none →
      formal_go s e types ((k, token) :: rest) = none) ∧
    (firstNumberMatch token.feats.toList = some "sg" →
      ∃ t, formal_go s e types ((k, token) :: rest) = some (t, true) ∧
        t.IlNumber = some "<singular>") ∧
    (firstNumberMatch token.feats.toList = some "pl" →
      ∃ t, formal_go s e types ((k, token) :: rest) = some (t, true) ∧
        t.IlNumber = some "<plural>") := by
  have hc : (pyLower token.lemma_ == "pan" || pyLower token.lemma_ == "pani") = true := by
    rcases hlem with h | h <;> simp [h]
  refine ⟨?_, ?_, ?_⟩ <;> intro hn <;>
    · rw [show token.feats.toList = token.feats.data from rfl] at hn
      simp [formal_go, hc, hdet, happ, htit]
      rw [hn] <;> simp

/-- C7 witness: the fatal case on the concrete `pan` token whose features
`m1:nom` carry no number code. -/
theorem honorific_number_is_fatal_or_sets_ilnumber_witness :
    formal_go ⟨[tokPanNoNum], []⟩ "how are you" initialise_types
      [(0, tokPanNoNum)] = none :=
  (honorific_number_is_fatal_or_sets_ilnumber ⟨[tokPanNoNum], []⟩ "how are you"
    initialise_types 0 tokPanNoNum [] (Or.inl (by decide)) (by decide) (by decide)
    (by decide)).1 (by decide)

/-- The terminal match conditions 2-4 of `check_if_formal` for the token at
position `k`: honorific `pan`/`pani` with its three guards, the
formal-possessive `pański`, or the formal-plural `państwo` with its two
guards. -/
def formalFires (s : Sentence) (e : String) (k : Nat) (token : Token) : Bool :=
  ((pyLower token.lemma_ == "pan" || pyLower token.lemma_ == "pani") &&
    no_det s k && no_appos s k && no_title e) ||
  (pyLower token.lemma_ == "pański") ||
  (token.lemma_ == "państwo" && no_det s k && no_nation e)

theorem formal_go_true_fires (s : Sentence) (e : String) :
    ∀ (l : List (Nat × Token)) (types t : Types),
      formal_go s e types l = some (t, true) →
      ∃ kt ∈ l, formalFires s e kt.1 kt.2 = true := by
  intro l
  induction l with
  | nil => intro types t h; simp [formal_go] at h
  | cons kt rest ih =>
    intro types t h
    obtain ⟨k, token⟩ := kt
    by_cases h2 : ((pyLower token.lemma_ == "pan" || pyLower token.lemma_ == "pani") &&
        no_det s k && no_appos s k && no_title e) = true
    · exact ⟨(k, token), List.mem_cons_self _ _, by simp [formalFires, h2]⟩
    · by_cases h3 : (pyLower token.lemma_ == "pański") = true
      · exact ⟨(k, token), List.mem_cons_self _ _, by simp [formalFires, h3]⟩
      · by_cases h4 : (token.lemma_ == "państwo" && no_det s k && no_nation e) = true
        · exact ⟨(k, token), List.mem_cons_self _ _, by simp [formalFires, h4]⟩
        · have hrec : formal_go s e
              (if pyLower token.orth_ == "proszę" && !(engPleaseAsk e)
               then { types with Formality := some "<formal>" } else types) rest
              = some (t, true) := by
            rw [← h]
            conv_rhs => simp only [formal_go]
            rw [if_neg h2, if_neg h3, if_neg h4]
          obtain ⟨kt', hmem, hfire⟩ := ih _ t hrec
          exact ⟨kt', List.mem_cons_of_mem _ hmem, hfire⟩

/-- C4: the formality rule is terminal.  Whenever `check_if_formal` signals
`sentence_is_formal = True` (which happens exactly from a return inside one
of its match conditions 2-4, as the second conjunct shows), `predict_types`
returns that rule's dictionary unchanged: `check_interlocutor` is never
run, so `IlGender`/`IlNumber`/`Formality` are not mutated afterwards. -/
theorem formality_rule_terminal (s : Sentence) (e : String)
    (stopwords : List String) (t : Types)
    (h : check_if_formal s e (check_speaker_gender s stopwords initialise_types)
      = some (t, true)) :
    predict_types s e stopwords = some t ∧
    ∃ kt ∈ s.tokens.enum, formalFires s e kt.1 kt.2 = true := by
  constructor
  · simp only [predict_types]
    rw [h]
  · exact formal_go_true_fires s e _ _ t h

/-- C4 witness: the terminal behavior on the concrete `pański` sentence. -/
theorem formality_rule_terminal_witness :
    predict_types sentPanski "your book" [] =
      some ⟨none, some "<il:masculine>", some "<singular>", some "<formal>"⟩ ∧
    ∃ kt ∈ sentPanski.tokens.enum,
      formalFires sentPanski "your book" kt.1 kt.2 = true :=
  formality_rule_terminal sentPanski "your book" []
    ⟨none, some "<il:masculine>", some "<singular>", some "<formal>"⟩ (by decide)

theorem gc_sp_idem (token : Token) (types : Types) :
    gender_check token (gender_check token types "SpGender") "SpGender"
      = gender_check token types "SpGender" := by
  simp only [gender_check_eq_sp]
  cases genderValue "sp" token.feats <;> simp

/-- The firing condition of the speaker-gender loop body for the token at
position `k`: a `sg`+`pri` token whose head passes one of the three
POS-specific dependency tests of `check_speaker_gender`. -/
def spFires (s : Sentence) (stopwords : List String) (k : Nat) (token : Token) : Bool :=
  let head := headOf s token
  let token_feats := pySplit token.feats ':'
  let head_feats := pySplit head.feats ':'
  ["NOUN", "VERB", "ADJ"].contains head.pos_ &&
  (token_feats.contains "sg" && token_feats.contains "pri") &&
  ((head.pos_ == "VERB" && ["aux:clitic", "aux", "aux:pass"].contains token.dep_) ||
   (head.pos_ == "NOUN" && head_feats.contains "inst" &&
      ["aux:clitic", "cop"].contains token.dep_ &&
      no_adp s k token.headIdx && !(stopwords.contains (pyLower head.lemma_))) ||
   (head.pos_ == "ADJ" &&
      ["aux:clitic", "aux:pass", "cop", "obl:cmpr", "obl"].contains token.dep_))

theorem sp_step_eq (s : Sentence) (stopwords : List String) (types : Types)
    (kt : Nat × Token) :
    sp_step s stopwords types kt =
      if spFires s stopwords kt.1 kt.2 then
        gender_check (headOf s kt.2) types "SpGender"
      else types := by
  obtain ⟨k, token⟩ := kt
  simp only [sp_step, spFires]
  split_ifs <;> simp_all [gc_sp_idem] <;> tauto

/-- What the speaker-gender loop body writes into `SpGender` for the token
at position `k`: the head's gender value when the configuration fires,
nothing otherwise (also nothing when it fires but the head carries no
gender code, since `gender_check` then leaves the slot alone). -/
def sp_assigns (s : Sentence) (stopwords : List String) (k : Nat)
    (token : Token) : Option String :=
  if spFires s stopwords k token then genderValue "sp" (headOf s token).feats
  else none

theorem sp_step_of_assigns (s : Sentence) (stopwords : List String)
    (types : Types) (kt : Nat × Token) :
    sp_step s stopwords types kt =
      match sp_assigns s stopwords kt.1 kt.2 with
      | some g => { types with SpGender := some g }
      | none => types := by
  rw [sp_step_eq]
  unfold sp_assigns
  by_cases hf : spFires s stopwords kt.1 kt.2 = true
  · simp only [hf, if_true, if_pos]
    exact gender_check_eq_sp _ _
  · simp [hf]

theorem foldl_sp_id (s : Sentence) (stopwords : List String) :
    ∀ (l : List (Nat × Token)) (types : Types),
      (∀ kt ∈ l, sp_assigns s stopwords kt.1 kt.2 = none) →
      l.foldl (sp_step s stopwords) types = types := by
  intro l
  induction l with
  | nil => intro types _; rfl
  | cons kt rest ih =>
    intro types h
    rw [List.foldl_cons, sp_step_of_assigns, h kt (List.mem_cons_self _ _)]
    exact ih types fun kt' hm => h kt' (List.mem_cons_of_mem _ hm)

/-- C5: the speaker-gender scan does not stop at its first hit.  If the
enumerated token list splits around a qualifying token (one whose
configuration fires and whose head carries a gender code `g`) and no later
token writes the slot, the final `SpGender` is `g` — so the last qualifying
token in sentence order wins, overwriting whatever earlier tokens wrote. -/
theorem speaker_gender_last_match_wins (s : Sentence) (stopwords : List String)
    (types : Types) (l1 l2 : List (Nat × Token)) (k : Nat) (token : Token)
    (g : String)
    (hsplit : s.tokens.enum = l1 ++ (k, token) :: l2)
    (hassign : sp_assigns s stopwords k token = some g)
    (hafter : ∀ kt ∈ l2, sp_assigns s stopwords kt.1 kt.2 = none) :
    (check_speaker_gender s stopwords types).SpGender = some g := by
  unfold check_speaker_gender
  rw [hsplit, List.foldl_append, List.foldl_cons,
    foldl_sp_id s stopwords l2 _ hafter, sp_step_of_assigns]
  simp [hassign]

/-- Fixture: first-person-singular clitic whose head is the masculine verb
at position 1. -/
def tokAux1 : Token := ⟨"em", "być", "AUX", "aux:clitic", "sg:pri", 1⟩

/-- Fixture: masculine past-tense verb (head of `tokAux1`). -/
def tokVerbM : Token := ⟨"robił", "robić", "VERB", "ROOT", "praet:sg:m1", 1⟩

/-- Fixture: first-person-singular auxiliary whose head is the feminine verb
at position 3. -/
def tokAux2 : Token := ⟨"bym", "być", "AUX", "aux", "sg:pri", 3⟩

/-- Fixture: feminine past-tense verb (head of `tokAux2`). -/
def tokVerbF : Token := ⟨"zrobiła", "zrobić", "VERB", "ROOT", "praet:sg:f", 3⟩

/-- Fixture: sentence with two qualifying speaker-gender configurations,
masculine first, feminine second. -/
def sentTwoSp : Sentence := ⟨[tokAux1, tokVerbM, tokAux2, tokVerbF], []⟩

/-- C5 witness: with a masculine match at position 0 and a feminine match at
position 2, the later (feminine) match determines the slot. -/
theorem speaker_gender_last_match_wins_witness :
    (check_speaker_gender sentTwoSp [] initialise_types).SpGender
      = some "<sp:feminine>" :=
  speaker_gender_last_match_wins sentTwoSp [] initialise_types
    [(0, tokAux1), (1, tokVerbM)] [(3, tokVerbF)] 2 tokAux2 "<sp:feminine>"
    (by decide) (by decide) (by decide)

theorem calc_stats_append (Ps Gs : List String) :
    ∀ (P G : List String) (st : Stats), P.length = G.length →
      calc_stats st (P ++ Ps) (G ++ Gs) =
        (calc_stats st P G).bind fun st' => calc_stats st' Ps Gs := by
  intro P
  induction P with
  | nil =>
    intro G st h
    have : G = [] := List.length_eq_zero.mp h.symm
    subst this
    simp [calc_stats]
  | cons p ps ih =>
    intro G st h
    cases G with
    | nil => simp at h
    | cons g gs =>
      simp only [List.cons_append, calc_stats]
      cases hf : fieldsStats st (pySplit p ',') (pySplit g ',') with
      | none => simp
      | some st' =>
        simp only [Option.bind_some]
        exact ih gs st' (by simpa using h)

theorem fieldsStats_empty4 (st : Stats) :
    fieldsStats st (pySplit ",,," ',') (pySplit ",,," ',')
      = some { st with true_positive := st.true_positive + 4 } := by
  show fieldsStats st ["", "", "", ""] ["", "", "", ""] = _
  simp [fieldsStats, updateField]

/-- C6 (amended): appending an all-empty aligned pair to equal-length
prediction/gold sequences leaves the false-positive and false-negative
counters unchanged and adds exactly 4 to the true-positive counter (one per
field); precision and recall therefore change whenever the respective
false counter is non-zero. -/
theorem append_empty_pair_adds_four_tp (P G : List String) (st : Stats)
    (hlen : P.length = G.length) (h : statsOf P G = some st) :
    statsOf (P ++ [",,,"]) (G ++ [",,,"])
      = some { st with true_positive := st.true_positive + 4 } := by
  unfold statsOf at *
  rw [calc_stats_append [",,,"] [",,,"] P G _ hlen, h]
  simp [calc_stats, fieldsStats_empty4]

/-- C6 witness: the amended counter law on a concrete aligned pair. -/
theorem append_empty_pair_adds_four_tp_witness :
    statsOf ([",,,<formal>"] ++ [",,,"]) ([",,,<formal>"] ++ [",,,"])
      = some ⟨0, 0, 8, 0⟩ :=
  append_empty_pair_adds_four_tp [",,,<formal>"] [",,,<formal>"] ⟨0, 0, 4, 0⟩
    (by decide) (by decide)

/-- C6 counterexample: appending the all-empty aligned pair `(",,,", ",,,")`
raises precision from 75 to 87.5 when a false positive is present, so
`calculate_f1`'s precision/recall are not invariant under appending
all-empty aligned pairs. -/
theorem append_empty_pair_changes_precision :
    (statsOf ["<sp:feminine>,,,"] [",,,"]).bind precisionOf = some 75 ∧
    (statsOf ["<sp:feminine>,,,", ",,,"] [",,,", ",,,"]).bind precisionOf
      = some (175 / 2) ∧
    (75 : ℚ) ≠ 175 / 2 := by
  have h1 : statsOf ["<sp:feminine>,,,"] [",,,"] = some ⟨1, 0, 3, 0⟩ := by decide
  have h2 : statsOf ["<sp:feminine>,,,", ",,,"] [",,,", ",,,"]
      = some ⟨1, 0, 7, 0⟩ := by decide
  rw [h1, h2]
  refine ⟨?_, ?_, by norm_num⟩ <;>
    · simp [precisionOf]
      norm_num

theorem snd_mem_of_mem_enumFrom {α : Type _} :
    ∀ (l : List α) (n : Nat) (kt : Nat × α), kt ∈ l.enumFrom n → kt.2 ∈ l := by
  intro l
  induction l with
  | nil => intro n kt h; simp [List.enumFrom] at h
  | cons a rest ih =>
    intro n kt h
    rw [List.enumFrom] at h
    rcases List.mem_cons.mp h with h1 | h2
    · subst h1; exact List.mem_cons_self _ _
    · exact List.mem_cons_of_mem _ (ih _ _ h2)

theorem snd_mem_of_mem_enum {α : Type _} (l : List α) (kt : Nat × α)
    (h : kt ∈ l.enum) : kt.2 ∈ l :=
  snd_mem_of_mem_enumFrom l 0 kt h

theorem getTok_mem_or_dummy (s : Sentence) (i : Nat) :
    getTok s i ∈ s.tokens ∨ getTok s i = dummyToken := by
  unfold getTok List.getD
  cases hh : s.tokens[i]? with
  | none => right; simp [hh]
  | some a => left; simp [hh]; exact List.getElem?_mem hh

/-- A token carrying none of the markers any detection rule reacts to: no
second-person feature, no first-person-singular pair, no formal-address or
second-person-possessive lemma, and not the politeness surface form. -/
def unmarkedToken (token : Token) : Bool :=
  !((pySplit token.feats ':').contains "sec") &&
  !((pySplit token.feats ':').contains "sg" && (pySplit token.feats ':').contains "pri") &&
  !(["pan", "pani", "pański", "twój", "wasz"].contains (pyLower token.lemma_)) &&
  !(token.lemma_ == "państwo") &&
  !(pyLower token.orth_ == "proszę")

theorem sp_assigns_none_of_no_sgpri (s : Sentence) (stopwords : List String)
    (k : Nat) (token : Token)
    (h : ¬("sg" ∈ pySplit token.feats ':' ∧ "pri" ∈ pySplit token.feats ':')) :
    sp_assigns s stopwords k token = none := by
  have hf : spFires s stopwords k token = false := by
    rw [Bool.eq_false_iff]
    intro htrue
    simp [spFires] at htrue
    tauto
  simp [sp_assigns, hf]

theorem formal_go_skip (s : Sentence) (e : String) :
    ∀ (l : List (Nat × Token)) (types : Types),
      (∀ kt ∈ l, pyLower (kt.2).orth_ ≠ "proszę" ∧ pyLower (kt.2).lemma_ ≠ "pan" ∧
        pyLower (kt.2).lemma_ ≠ "pani" ∧ pyLower (kt.2).lemma_ ≠ "pański" ∧
        (kt.2).lemma_ ≠ "państwo") →
      formal_go s e types l = some (types, false) := by
  intro l
  induction l with
  | nil => intro types _; rfl
  | cons kt rest ih =>
    intro types h
    obtain ⟨k, token⟩ := kt
    obtain ⟨h1, h2, h3, h4, h5⟩ := h (k, token) (List.mem_cons_self _ _)
    simp [formal_go, h1, h2, h3, h4, h5]
    exact ih types fun kt hm => h kt (List.mem_cons_of_mem _ hm)

theorem iloc_secHead_id (s : Sentence) (number : String) (token : Token)
    (types : Types) (h : "sec" ∉ pySplit (headOf s token).feats ':') :
    iloc_secHead s number token types = types := by
  simp [iloc_secHead, h]

theorem iloc_possessive_id (token : Token) (types : Types)
    (h1 : pyLower token.lemma_ ≠ "twój") (h2 : pyLower token.lemma_ ≠ "wasz") :
    iloc_possessive token types = types := by
  simp [iloc_possessive, h1, h2]

theorem iloc_secTok_id (s : Sentence) (number : String) (k : Nat)
    (token : Token) (tc : Types × Bool)
    (h : "sec" ∉ pySplit token.feats ':') :
    iloc_secTok s number k token tc = tc := by
  obtain ⟨types, cc⟩ := tc
  simp [iloc_secTok, h]

theorem iloc_step_id (s : Sentence) (stopwords : List String) (types : Types)
    (kt : Nat × Token)
    (hsec : "sec" ∉ pySplit (kt.2).feats ':')
    (hsecHead : "sec" ∉ pySplit (headOf s kt.2).feats ':')
    (htwoj : pyLower (kt.2).lemma_ ≠ "twój")
    (hwasz : pyLower (kt.2).lemma_ ≠ "wasz") :
    iloc_step s stopwords types kt = types := by
  obtain ⟨k, token⟩ := kt
  simp only [iloc_step]
  rw [iloc_secHead_id s "sg" token types hsecHead,
    iloc_secHead_id s "pl" token types hsecHead,
    iloc_possessive_id token types htwoj hwasz,
    iloc_secTok_id s "sg" k token (types, false) hsec,
    iloc_secTok_id s "pl" k token (types, false) hsec]
  simp

theorem foldl_iloc_id (s : Sentence) (stopwords : List String) :
    ∀ (l : List (Nat × Token)) (types : Types),
      (∀ kt ∈ l, "sec" ∉ pySplit (kt.2).feats ':' ∧
        "sec" ∉ pySplit (headOf s kt.2).feats ':' ∧
        pyLower (kt.2).lemma_ ≠ "twój" ∧ pyLower (kt.2).lemma_ ≠ "wasz") →
      l.foldl (iloc_step s stopwords) types = types := by
  intro l
  induction l with
  | nil => intro types _; rfl
  | cons kt rest ih =>
    intro types h
    obtain ⟨h1, h2, h3, h4⟩ := h kt (List.mem_cons_self _ _)
    rw [List.foldl_cons, iloc_step_id s stopwords types kt h1 h2 h3 h4]
    exact ih types fun kt' hm => h kt' (List.mem_cons_of_mem _ hm)

/-- C8 (amended): a sentence with no second-person marker (no `sec` feature
on any token and no `twój`/`wasz` possessive lemma), no first-person
singular marker (no token with both `sg` and `pri`), no formal-address
lemma (`pan`/`pani`/`pański`/`państwo`) — and, additionally to the claim,
no token with the politeness surface form `proszę` — is predicted with all
four slots unset. -/
theorem unmarked_predicts_all_unset (s : Sentence) (e : String)
    (stopwords : List String)
    (h : ∀ token ∈ s.tokens, unmarkedToken token = true) :
    predict_types s e stopwords = some initialise_types := by
  have hp : ∀ token ∈ s.tokens,
      "sec" ∉ pySplit token.feats ':' ∧
      ¬("sg" ∈ pySplit token.feats ':' ∧ "pri" ∈ pySplit token.feats ':') ∧
      pyLower token.lemma_ ≠ "pan" ∧ pyLower token.lemma_ ≠ "pani" ∧
      pyLower token.lemma_ ≠ "pański" ∧ pyLower token.lemma_ ≠ "twój" ∧
      pyLower token.lemma_ ≠ "wasz" ∧ token.lemma_ ≠ "państwo" ∧
      pyLower token.orth_ ≠ "proszę" := by
    intro token hm
    have hu := h token hm
    simp [unmarkedToken] at hu
    tauto
  have hsp : check_speaker_gender s stopwords initialise_types
      = initialise_types := by
    unfold check_speaker_gender
    exact foldl_sp_id s stopwords _ _ fun kt hm =>
      sp_assigns_none_of_no_sgpri s stopwords kt.1 kt.2
        (hp kt.2 (snd_mem_of_mem_enum _ _ hm)).2.1
  have hform : check_if_formal s e initialise_types
      = some (initialise_types, false) := by
    apply formal_go_skip
    intro kt hm
    obtain ⟨-, -, hpan, hpani, hpanski, -, -, hpanstwo, horth⟩ :=
      hp kt.2 (snd_mem_of_mem_enum _ _ hm)
    exact ⟨horth, hpan, hpani, hpanski, hpanstwo⟩
  have hil : check_interlocutor s stopwords initialise_types
      = initialise_types := by
    unfold check_interlocutor
    apply foldl_iloc_id
    intro kt hm
    obtain ⟨hsec, -, -, -, -, htwoj, hwasz, -, -⟩ :=
      hp kt.2 (snd_mem_of_mem_enum _ _ hm)
    refine ⟨hsec, ?_, htwoj, hwasz⟩
    rcases getTok_mem_or_dummy s (kt.2).headIdx with hmem | hdum
    · exact (hp _ hmem).1
    · rw [show headOf s kt.2 = getTok s (kt.2).headIdx from rfl, hdum]
      decide
  simp only [predict_types]
  rw [hsp, hform]
  show some (check_interlocutor s stopwords initialise_types)
    = some initialise_types
  rw [hil]

/-- C8 witness: an ordinary third-person sentence is predicted all-unset. -/
theorem unmarked_predicts_all_unset_witness :
    predict_types ⟨[⟨"widzi", "widzieć", "VERB", "ROOT", "fin:ter", 0⟩], []⟩
      "he sees" [] = some initialise_types :=
  unmarked_predicts_all_unset
    ⟨[⟨"widzi", "widzieć", "VERB", "ROOT", "fin:ter", 0⟩], []⟩ "he sees" []
    (by decide)

/-- C8 counterexample: the one-token sentence `proszę` (lemma `prosić`)
carries no second-person marker, no first-person-singular marker and no
formal-address lemma, yet `predict_types` does not return all slots unset:
the politeness branch sets `Formality = <formal>`. -/
theorem prosze_violates_all_unset :
    sentProsze.tokens = [tokProsze] ∧
    ((pySplit tokProsze.feats ':').contains "sec") = false ∧
    (((pySplit tokProsze.feats ':').contains "sg") &&
      ((pySplit tokProsze.feats ':').contains "pri")) = false ∧
    (["pan", "pani", "pański"].contains (pyLower tokProsze.lemma_)) = false ∧
    (["twój", "wasz"].contains (pyLower tokProsze.lemma_)) = false ∧
    (tokProsze.lemma_ == "państwo") = false ∧
    predict_types sentProsze "Come in" [] ≠ some initialise_types := by decide

theorem gc_il_formality (token : Token) (types : Types) :
    (gender_check token types "IlGender").Formality = types.Formality := by
  rw [gender_check_eq_il]
  cases genderValue "il" token.feats <;> simp

theorem iloc_secHead_formality (s : Sentence) (number : String) (token : Token)
    (types : Types) :
    (iloc_secHead s number token types).Formality = types.Formality ∨
    (iloc_secHead s number token types).Formality = some "<informal>" := by
  simp only [iloc_secHead]
  split_ifs <;> simp [gc_il_formality]

theorem iloc_secHead_informal (s : Sentence) (number : String) (token : Token)
    (types : Types)
    (hn : number ∈ pySplit (headOf s token).feats ':')
    (hs : "sec" ∈ pySplit (headOf s token).feats ':')
    (hp : (headOf s token).pos_ = "VERB" ∨ (headOf s token).pos_ = "PRON") :
    (iloc_secHead s number token types).Formality = some "<informal>" := by
  simp only [iloc_secHead]
  split_ifs <;> simp_all [gc_il_formality]

theorem iloc_possessive_formality (token : Token) (types : Types) :
    (iloc_possessive token types).Formality = types.Formality ∨
    (iloc_possessive token types).Formality = some "<informal>" := by
  simp only [iloc_possessive]
  split_ifs <;> simp

theorem iloc_possessive_informal (token : Token) (types : Types)
    (h : pyLower token.lemma_ = "twój" ∨ pyLower token.lemma_ = "wasz") :
    (iloc_possessive token types).Formality = some "<informal>" := by
  simp only [iloc_possessive]
  split_ifs <;> simp_all

theorem iloc_secTok_formality (s : Sentence) (number : String) (k : Nat)
    (token : Token) (tc : Types × Bool) :
    ((iloc_secTok s number k token tc).1.Formality = (tc.1).Formality ∧
      (iloc_secTok s number k token tc).2 = tc.2) ∨
    ((iloc_secTok s number k token tc).1.Formality = some "<informal>" ∧
      (iloc_secTok s number k token tc).2 = true) := by
  obtain ⟨types, cc⟩ := tc
  simp only [iloc_secTok]
  split_ifs <;> simp

theorem iloc_secTok_fires (s : Sentence) (number : String) (k : Nat)
    (token : Token) (tc : Types × Bool)
    (hs : "sec" ∈ pySplit token.feats ':')
    (hn : number ∈ pySplit token.feats ':')
    (hexc : ¬(token.orth_ = "ś" ∧
      (getTok s (if k = 0 then s.tokens.length - 1 else k - 1)).orth_ ∈
        (["czym", "kim"] : List String))) :
    (iloc_secTok s number k token tc).1.Formality = some "<informal>" ∧
    (iloc_secTok s number k token tc).2 = true := by
  obtain ⟨types, cc⟩ := tc
  simp only [iloc_secTok]
  split_ifs <;> simp_all

theorem iloc_ccGender_formality (s : Sentence) (stopwords : List String)
    (k : Nat) (token : Token) (types : Types) :
    (iloc_ccGender s stopwords k token types).Formality = types.Formality := by
  simp only [iloc_ccGender]
  split_ifs <;> simp [gc_il_formality]

theorem informal_chain {a b c : Option String}
    (h1 : b = a ∨ b = some "<informal>") (h2 : c = b ∨ c = some "<informal>") :
    c = a ∨ c = some "<informal>" := by
  rcases h2 with h2 | h2
  · rcases h1 with h1 | h1
    · exact Or.inl (h2.trans h1)
    · exact Or.inr (h2.trans h1)
  · exact Or.inr h2

theorem iloc_step_formality (s : Sentence) (stopwords : List String)
    (types : Types) (kt : Nat × Token) :
    (iloc_step s stopwords types kt).Formality = types.Formality ∨
    (iloc_step s stopwords types kt).Formality = some "<informal>" := by
  obtain ⟨k, token⟩ := kt
  simp only [iloc_step]
  have hfin : ∀ (tc : Types × Bool),
      (if tc.2 = true then iloc_ccGender s stopwords k token tc.1
       else tc.1).Formality = (tc.1).Formality := by
    intro tc
    cases h2 : tc.2 <;> simp [h2, iloc_ccGender_formality]
  rw [hfin]
  have h1 := iloc_secHead_formality s "sg" token types
  have h2 := iloc_secHead_formality s "pl" token
    (iloc_secHead s "sg" token types)
  have h3 := iloc_possessive_formality token
    (iloc_secHead s "pl" token (iloc_secHead s "sg" token types))
  have h4 : (iloc_secTok s "sg" k token
        (iloc_possessive token
          (iloc_secHead s "pl" token (iloc_secHead s "sg" token types)),
        false)).1.Formality
      = (iloc_possessive token
          (iloc_secHead s "pl" token (iloc_secHead s "sg" token types))).Formality ∨
      (iloc_secTok s "sg" k token
        (iloc_possessive token
          (iloc_secHead s "pl" token (iloc_secHead s "sg" token types)),
        false)).1.Formality = some "<informal>" :=
    (iloc_secTok_formality s "sg" k token _).imp And.left And.left
  have h5 : (iloc_secTok s "pl" k token
        (iloc_secTok s "sg" k token
          (iloc_possessive token
            (iloc_secHead s "pl" token (iloc_secHead s "sg" token types)),
          false))).1.Formality
      = (iloc_secTok s "sg" k token
          (iloc_possessive token
            (iloc_secHead s "pl" token (iloc_secHead s "sg" token types)),
          false)).1.Formality ∨
      (iloc_secTok s "pl" k token
        (iloc_secTok s "sg" k token
          (iloc_possessive token
            (iloc_secHead s "pl" token (iloc_secHead s "sg" token types)),
          false))).1.Formality = some "<informal>" :=
    (iloc_secTok_formality s "pl" k token _).imp And.left And.left
  exact informal_chain (informal_chain (informal_chain (informal_chain h1 h2) h3) h4) h5

/-- The conditions of `check_interlocutor` that write the `Formality` slot
(always with `<informal>`) for the token at position `k`: a second-person
head that is a verb or pronoun, a `twój`/`wasz` possessive lemma, or a
second-person feature on the token itself outside the `ś`-clitic
exception. -/
@[reducible] def ilocFires (s : Sentence) (k : Nat) (token : Token) : Prop :=
  (("sg" ∈ pySplit (headOf s token).feats ':' ∨
      "pl" ∈ pySplit (headOf s token).feats ':') ∧
    "sec" ∈ pySplit (headOf s token).feats ':' ∧
    ((headOf s token).pos_ = "VERB" ∨ (headOf s token).pos_ = "PRON")) ∨
  pyLower token.lemma_ = "twój" ∨ pyLower token.lemma_ = "wasz" ∨
  ("sec" ∈ pySplit token.feats ':' ∧
    ("sg" ∈ pySplit token.feats ':' ∨ "pl" ∈ pySplit token.feats ':') ∧
    ¬(token.orth_ = "ś" ∧
      (getTok s (if k = 0 then s.tokens.length - 1 else k - 1)).orth_ ∈
        (["czym", "kim"] : List String)))

theorem iloc_step_informal_of_fires (s : Sentence) (stopwords : List String)
    (types : Types) (kt : Nat × Token) (h : ilocFires s kt.1 kt.2) :
    (iloc_step s stopwords types kt).Formality = some "<informal>" := by
  obtain ⟨k, token⟩ := kt
  simp only [iloc_step]
  have hfin : ∀ (tc : Types × Bool),
      (if tc.2 = true then iloc_ccGender s stopwords k token tc.1
       else tc.1).Formality = (tc.1).Formality := by
    intro tc
    cases h2 : tc.2 <;> simp [h2, iloc_ccGender_formality]
  rw [hfin]
  have pres2 : ∀ (u : Types), u.Formality = some "<informal>" →
      (iloc_secHead s "pl" token u).Formality = some "<informal>" := by
    intro u hu
    rcases iloc_secHead_formality s "pl" token u with h' | h'
    · exact h'.trans hu
    · exact h'
  have pres3 : ∀ (u : Types), u.Formality = some "<informal>" →
      (iloc_possessive token u).Formality = some "<informal>" := by
    intro u hu
    rcases iloc_possessive_formality token u with h' | h'
    · exact h'.trans hu
    · exact h'
  have pres4 : ∀ (number : String) (tc : Types × Bool),
      (tc.1).Formality = some "<informal>" →
      (iloc_secTok s number k token tc).1.Formality = some "<informal>" := by
    intro number tc hu
    rcases iloc_secTok_formality s number k token tc with ⟨h', -⟩ | ⟨h', -⟩
    · exact h'.trans hu
    · exact h'
  rcases h with hA | hB | hC | hD
  · -- second-person head branch
    have base : (iloc_secHead s "pl" token
        (iloc_secHead s "sg" token types)).Formality = some "<informal>" := by
      rcases hA.1 with hsg | hpl
      · exact pres2 _ (iloc_secHead_informal s "sg" token types hsg hA.2.1 hA.2.2)
      · exact iloc_secHead_informal s "pl" token _ hpl hA.2.1 hA.2.2
    exact pres4 "pl" _ (pres4 "sg" _ (pres3 _ base))
  · -- twój
    exact pres4 "pl" _ (pres4 "sg" _ (iloc_possessive_informal token _ (Or.inl hB)))
  · -- wasz
    exact pres4 "pl" _ (pres4 "sg" _ (iloc_possessive_informal token _ (Or.inr hC)))
  · -- second-person token branch
    rcases hD.2.1 with hsg | hpl
    · exact pres4 "pl" _ (iloc_secTok_fires s "sg" k token _ hD.1 hsg hD.2.2).1
    · exact (iloc_secTok_fires s "pl" k token _ hD.1 hpl hD.2.2).1

theorem foldl_iloc_informal (s : Sentence) (stopwords : List String) :
    ∀ (l : List (Nat × Token)) (types : Types),
      types.Formality = some "<informal>" →
      (l.foldl (iloc_step s stopwords) types).Formality = some "<informal>" := by
  intro l
  induction l with
  | nil => intro types h; exact h
  | cons kt rest ih =>
    intro types h
    rw [List.foldl_cons]
    apply ih
    rcases iloc_step_formality s stopwords types kt with h' | h'
    · exact h'.trans h
    · exact h'

theorem foldl_iloc_fires (s : Sentence) (stopwords : List String) :
    ∀ (l : List (Nat × Token)) (types : Types),
      (∃ kt ∈ l, ilocFires s kt.1 kt.2) →
      (l.foldl (iloc_step s stopwords) types).Formality = some "<informal>" := by
  intro l
  induction l with
  | nil => intro types h; simp at h
  | cons kt0 rest ih =>
    intro types h
    rw [List.foldl_cons]
    rcases h with ⟨kt, hmem, hfire⟩
    rcases List.mem_cons.mp hmem with rfl | hmem'
    · exact foldl_iloc_informal s stopwords rest _
        (iloc_step_informal_of_fires s stopwords types kt hfire)
    · exact ih _ ⟨kt, hmem', hfire⟩

theorem formal_go_false_pres (s : Sentence) (e : String) :
    ∀ (l : List (Nat × Token)) (types t : Types),
      formal_go s e types l = some (t, false) →
      types.Formality = some "<formal>" → t.Formality = some "<formal>" := by
  intro l
  induction l with
  | nil =>
    intro types t h hf
    simp [formal_go] at h
    rw [← h]
    exact hf
  | cons kt0 rest ih =>
    intro types t h hf
    obtain ⟨k, token⟩ := kt0
    by_cases h2 : ((pyLower token.lemma_ == "pan" || pyLower token.lemma_ == "pani") &&
        no_det s k && no_appos s k && no_title e) = true
    · exfalso
      simp only [formal_go] at h
      rw [if_pos h2] at h
      cases hfn : firstNumberMatch token.feats.toList <;> rw [hfn] at h <;> simp at h
    · by_cases h3 : (pyLower token.lemma_ == "pański") = true
      · exfalso
        simp only [formal_go] at h
        rw [if_neg h2, if_pos h3] at h
        simp at h
      · by_cases h4 : (token.lemma_ == "państwo" && no_det s k && no_nation e) = true
        · exfalso
          simp only [formal_go] at h
          rw [if_neg h2, if_neg h3, if_pos h4] at h
          simp at h
        · simp only [formal_go] at h
          rw [if_neg h2, if_neg h3, if_neg h4] at h
          apply ih _ t h
          by_cases hb : (pyLower token.orth_ == "proszę" && !engPleaseAsk e) = true
          · rw [if_pos hb]
          · rw [if_neg hb]; exact hf

theorem formal_go_false_prosze (s : Sentence) (e : String)
    (heng : engPleaseAsk e = false) :
    ∀ (l : List (Nat × Token)) (types t : Types),
      formal_go s e types l = some (t, false) →
      (∃ kt ∈ l, pyLower (kt.2).orth_ = "proszę") →
      t.Formality = some "<formal>" := by
  intro l
  induction l with
  | nil => intro types t _ hex; simp at hex
  | cons kt0 rest ih =>
    intro types t h hex
    obtain ⟨k, token⟩ := kt0
    by_cases h2 : ((pyLower token.lemma_ == "pan" || pyLower token.lemma_ == "pani") &&
        no_det s k && no_appos s k && no_title e) = true
    · exfalso
      simp only [formal_go] at h
      rw [if_pos h2] at h
      cases hfn : firstNumberMatch token.feats.toList <;> rw [hfn] at h <;> simp at h
    · by_cases h3 : (pyLower token.lemma_ == "pański") = true
      · exfalso
        simp only [formal_go] at h
        rw [if_neg h2, if_pos h3] at h
        simp at h
      · by_cases h4 : (token.lemma_ == "państwo" && no_det s k && no_nation e) = true
        · exfalso
          simp only [formal_go] at h
          rw [if_neg h2, if_neg h3, if_pos h4] at h
          simp at h
        · simp only [formal_go] at h
          rw [if_neg h2, if_neg h3, if_neg h4] at h
          rcases hex with ⟨kt, hmem, hpro⟩
          rcases List.mem_cons.mp hmem with heq | hmem'
          · have hb : (pyLower token.orth_ == "proszę" && !engPleaseAsk e) = true := by
              rw [heq] at hpro
              simp [hpro, heng]
            apply formal_go_false_pres s e rest _ t h
            rw [if_pos hb]
          · exact ih _ t h ⟨kt, hmem', hpro⟩

theorem mem_enumFrom_of_mem {α : Type _} :
    ∀ (l : List α) (a : α), a ∈ l → ∀ n, ∃ k, (k, a) ∈ l.enumFrom n := by
  intro l
  induction l with
  | nil => intro a h; simp at h
  | cons b rest ih =>
    intro a h n
    rcases List.mem_cons.mp h with rfl | h'
    · exact ⟨n, List.mem_cons_self _ _⟩
    · obtain ⟨k, hk⟩ := ih a h' (n + 1)
      exact ⟨k, List.mem_cons_of_mem _ hk⟩

/-- C9: when the politeness branch fired (a `proszę` surface form, English
without `please`/`ask`) but no terminal formality branch did, and any
second-person condition of the interlocutor rule matches, the `<formal>`
value left by the politeness branch is silently overwritten: the final
`Formality` is `<informal>`. -/
theorem interlocutor_overwrites_politeness (s : Sentence) (e : String)
    (stopwords : List String) (t : Types)
    (hpro : ∃ token ∈ s.tokens, pyLower token.orth_ = "proszę")
    (heng : engPleaseAsk e = false)
    (hform : check_if_formal s e (check_speaker_gender s stopwords initialise_types)
      = some (t, false))
    (hfire : ∃ kt ∈ s.tokens.enum, ilocFires s kt.1 kt.2) :
    t.Formality = some "<formal>" ∧
    predict_types s e stopwords = some (check_interlocutor s stopwords t) ∧
    (check_interlocutor s stopwords t).Formality = some "<informal>" := by
  refine ⟨?_, ?_, ?_⟩
  · obtain ⟨token, hmem, hpro'⟩ := hpro
    obtain ⟨k, hk⟩ := mem_enumFrom_of_mem s.tokens token hmem 0
    exact formal_go_false_prosze s e heng s.tokens.enum _ t hform ⟨(k, token), hk, hpro'⟩
  · simp only [predict_types]
    rw [hform]
  · unfold check_interlocutor
    exact foldl_iloc_fires s stopwords s.tokens.enum t hfire

/-- C9 witness: `proszę` followed by a second-person verb; the formality
rule leaves `Formality = <formal>` non-terminally and the interlocutor rule
overwrites it with `<informal>`. -/
theorem interlocutor_overwrites_politeness_witness :
    (⟨none, none, none, some "<formal>"⟩ : Types).Formality = some "<formal>" ∧
    predict_types sentProszeSec "Come in tomorrow" [] =
      some (check_interlocutor sentProszeSec []
        ⟨none, none, none, some "<formal>"⟩) ∧
    (check_interlocutor sentProszeSec []
      ⟨none, none, none, some "<formal>"⟩).Formality = some "<informal>" :=
  interlocutor_overwrites_politeness sentProszeSec "Come in tomorrow" []
    ⟨none, none, none, some "<formal>"⟩
    ⟨tokProsze, by decide, by decide⟩ (by decide) (by decide)
    ⟨(1, tokSec), by decide, by decide⟩
